import Mathlib

/-
  Verification development for the Blog_Platform repository.

  Shallow embedding of the authentication and ownership-authorization layer:
  the User and Post models (backend/src/models/User.js, Post.js), the JWT
  middleware (backend/src/middleware/auth.js: authenticateToken, optionalAuth,
  generateToken), and the controllers (authController.js, postController.js).

  Modelling conventions:
  - JavaScript strings are Lean `String`s; `jsTrim`, `jsToLower` and
    `String.length` model `trim()`, `toLowerCase()` and `.length`
    (code-unit vs char differences are immaterial for the properties
    proved here).
  - A missing/undefined request-body field is modelled as the empty string,
    matching the JS falsiness checks (`!title`, `!email`, ...) used by the code.
  - Database ids and timestamps are `Nat`; route-parameter parsing collapses
    every invalid id (NaN, zero, negative) to `0`, which the controllers
    reject exactly as the source rejects `isNaN(id) || id <= 0`.
  - The external `jsonwebtoken` library is modelled by `jwtSign`/`jwtVerify`
    following its documented semantics: `verify(token, secret)` with no
    options object checks the signature and the `exp` claim, and checks
    `iss`/`aud` only when the corresponding options are supplied (the
    repository supplies none).  The HMAC signature is modelled as an
    injective encoding of (secret, payload).  The platform never issues an
    `nbf` claim, so the token space carries none.
  - The external `bcryptjs` library is modelled by an abstract hash function
    (`hashFn`) at registration and an abstract comparison function
    (`compare`) at login, both passed as parameters.
-/

namespace BlogPlatform

/-! ### JavaScript string primitives

Structurally recursive models of `toLowerCase()`, `trim()` and `split(c)`
(the core-library versions use well-founded recursion, which blocks kernel
evaluation on concrete inputs). -/

/-- JS `String.prototype.toLowerCase` (ASCII, which covers every string the
code lowercases). -/
def jsToLower (s : String) : String :=
  String.mk (s.toList.map Char.toLower)

/-- JS `String.prototype.trim`: strip leading and trailing whitespace. -/
def jsTrim (s : String) : String :=
  String.mk
    (((s.toList.dropWhile Char.isWhitespace).reverse.dropWhile
        Char.isWhitespace).reverse)

/-- Split a character list at every occurrence of `c` (JS
`String.prototype.split`). -/
def splitOnChar (c : Char) : List Char → List (List Char)
  | [] => [[]]
  | x :: xs =>
      let r := splitOnChar c xs
      if x = c then [] :: r
      else
        match r with
        | [] => [[x]]
        | h :: t => (x :: h) :: t

/-! ### Identity (backend/src/models/User.js) -/

/-- A row of the `users` table, also the in-memory `User` object. -/
structure User where
  id : Nat
  email : String
  passwordHash : String
  createdAt : Nat
deriving Repr, DecidableEq

/-- The "safe view" of an identity: the object returned by
`User.toSafeObject()`.  By construction it has no password-hash field. -/
structure SafeUser where
  id : Nat
  email : String
  createdAt : Nat
deriving Repr, DecidableEq

/-- `User.prototype.toSafeObject`: strips the password hash. -/
def User.toSafeObject (u : User) : SafeUser :=
  { id := u.id, email := u.email, createdAt := u.createdAt }

/-- `User.findById`: `SELECT * FROM users WHERE id = ?`. -/
def User.findById (users : List User) (id : Nat) : Option User :=
  users.find? (fun u => u.id == id)

/-- `User.findByEmail`: `SELECT * FROM users WHERE email = ?`. -/
def User.findByEmail (users : List User) (email : String) : Option User :=
  users.find? (fun u => u.email == email)

/-- `User.create(email, password)`: duplicate-email check, bcrypt hash, insert,
then re-fetch the freshly inserted row (AUTOINCREMENT returns its id, so the
re-fetched row is the inserted one).  `hashFn` models `bcrypt.hash`;
`nextId`/`now` model the AUTOINCREMENT id and `CURRENT_TIMESTAMP`. -/
def User.create (hashFn : String → String) (users : List User)
    (nextId now : Nat) (email password : String) :
    Except String (User × List User) :=
  match User.findByEmail users email with
  | some _ => .error "User with this email already exists"
  | none =>
      let u : User := { id := nextId, email := email,
                        passwordHash := hashFn password, createdAt := now }
      .ok (u, users ++ [u])

/-! ### Tokens (backend/src/middleware/auth.js + the jsonwebtoken library) -/

/-- The payload carried by every token this platform signs or receives:
subject identity id, issued-at, expiry, issuer, audience. -/
structure JwtPayload where
  userId : Nat
  iat : Nat
  exp : Nat
  iss : String
  aud : String
deriving Repr, DecidableEq

/-- A signed token: payload plus signature string. -/
structure JwtToken where
  payload : JwtPayload
  sig : String
deriving Repr, DecidableEq

/-- Model of the HMAC signature: an injective encoding of secret and payload.
A party without the secret cannot produce `jwtSignature secret p`. -/
def jwtSignature (secret : String) (p : JwtPayload) : String :=
  secret ++ "#" ++ toString p.userId ++ "#" ++ toString p.iat ++ "#" ++
    toString p.exp ++ "#" ++ p.iss ++ "#" ++ p.aud

/-- The two verification failures `jsonwebtoken` can raise on this token
space: `TokenExpiredError` and `JsonWebTokenError` (bad signature /
structure). -/
inductive JwtError where
  | expired
  | malformed
deriving Repr, DecidableEq

/-- `jwt.verify(token, secret)` with NO options object, exactly as both
middlewares call it: the signature is checked, then the `exp` claim against
the clock (`expired` when `now ≥ exp`).  The `iss` and `aud` claims are NOT
checked, because the call site passes no `issuer`/`audience` option. -/
def jwtVerify (secret : String) (now : Nat) (t : JwtToken) :
    Except JwtError JwtPayload :=
  if t.sig ≠ jwtSignature secret t.payload then .error .malformed
  else if t.payload.exp ≤ now then .error .expired
  else .ok t.payload

/-- `generateToken(userId, expiresIn = '7d')`: payload `{userId, iat: now}`,
signed with the secret, `expiresIn` adding the `exp` claim, fixed issuer
`'blog-platform'` and audience `'blog-platform-users'`.  `ttlSeconds`
defaults to 7 days. -/
def generateToken (secret : String) (now : Nat) (userId : Nat)
    (ttlSeconds : Nat := 604800) : JwtToken :=
  let p : JwtPayload :=
    { userId := userId, iat := now, exp := now + ttlSeconds,
      iss := "blog-platform", aud := "blog-platform-users" }
  { payload := p, sig := jwtSignature secret p }

/-! ### Identity-resolution middleware (backend/src/middleware/auth.js) -/

/-- The `Authorization` header as the middleware's string tests see it:
`missing` covers both an absent header and one not starting with
`"Bearer "`; `bearerEmpty` covers `"Bearer "` with nothing usable after the
split; `bearer t` carries the presented token. -/
inductive AuthHeader where
  | missing
  | bearerEmpty
  | bearer (t : JwtToken)
deriving Repr, DecidableEq

/-- Outcome of `authenticateToken`: an early `res.status(status).json({error,
details})` rejection, or `next()` after attaching `req.user` (safe view) and
`req.userId` (raw id). -/
inductive AuthOutcome where
  | reject (status : Nat) (error details : String)
  | proceed (user : SafeUser) (userId : Nat)
deriving Repr, DecidableEq

/-- `authenticateToken(req, res, next)`: header checks, `jwt.verify` with
branching on the error name, `User.findById` re-resolution, then attach and
proceed. -/
def authenticateToken (secret : String) (now : Nat) (users : List User)
    (h : AuthHeader) : AuthOutcome :=
  match h with
  | .missing =>
      .reject 401 "Access denied. No valid token provided."
        "Please include a valid JWT token in the Authorization header"
  | .bearerEmpty =>
      .reject 401 "Access denied. Token format is invalid."
        "Token should be provided as: Bearer <your-token>"
  | .bearer t =>
      match jwtVerify secret now t with
      | .error .expired =>
          .reject 401 "Token has expired"
            "Please log in again to get a new token"
      | .error .malformed =>
          .reject 401 "Invalid token"
            "The provided token is malformed or invalid"
      | .ok decoded =>
          match User.findById users decoded.userId with
          | none =>
              .reject 401 "User no longer exists"
                "The account associated with this token has been removed"
          | some user => .proceed user.toSafeObject user.id

/-- What `optionalAuth` leaves on the request: `req.user` and `req.userId`,
each possibly `null`. -/
structure OptionalResult where
  user : Option SafeUser
  userId : Option Nat
deriving Repr, DecidableEq

/-- `optionalAuth(req, res, next)`: same checks as `authenticateToken`, but
every failure path sets `req.user = null; req.userId = null` and calls
`next()`; it never sends a rejection response. -/
def optionalAuth (secret : String) (now : Nat) (users : List User)
    (h : AuthHeader) : OptionalResult :=
  match h with
  | .missing => { user := none, userId := none }
  | .bearerEmpty => { user := none, userId := none }
  | .bearer t =>
      match jwtVerify secret now t with
      | .error _ => { user := none, userId := none }
      | .ok decoded =>
          match User.findById users decoded.userId with
          | none => { user := none, userId := none }
          | some user =>
              { user := some user.toSafeObject, userId := some user.id }

/-! ### Auth controller (backend/src/controllers/authController.js) -/

/-- A JSON error body `{error, details}`. -/
structure ErrorBody where
  error : String
  details : String
deriving Repr, DecidableEq

/-- The regex `/^[^\s@]+@[^\s@]+\.[^\s@]+$/` from `authController.register`:
exactly one `@`; a non-empty local part and a non-empty domain, neither
containing whitespace or `@`; the domain containing a dot with non-empty
text on both sides. -/
def emailRegexTest (e : String) : Bool :=
  match splitOnChar '@' e.toList with
  | [l, d] =>
      let okChar := fun (ch : Char) => !(ch == '@') && !ch.isWhitespace
      !l.isEmpty && l.all okChar && !d.isEmpty && d.all okChar &&
        (List.range d.length).any
          (fun i => decide (0 < i) && decide (i + 1 < d.length) &&
            d.getD i ' ' == '.')
  | _ => false

/-- A response from the auth controller endpoints. -/
inductive AuthResponse where
  | err (status : Nat) (body : ErrorBody)
  | okAuth (status : Nat) (message : String) (user : SafeUser) (token : JwtToken)
  | okUser (status : Nat) (message : String) (user : SafeUser)
  | okToken (status : Nat) (message : String) (token : JwtToken)
deriving Repr, DecidableEq

namespace authController

/-- `authController.register`: presence check, email-format check, password
length ≥ 6, normalize the email (lowercase + trim), `User.create`, then
respond 201 with the safe view and a fresh token.  A duplicate email becomes
the 409 Conflict response. -/
def register (hashFn : String → String) (secret : String)
    (users : List User) (nextId now : Nat) (email password : String) :
    AuthResponse × List User :=
  if email == "" || password == "" then
    (.err 400 { error := "Missing required fields",
                details := "Both email and password are required" }, users)
  else if !emailRegexTest email then
    (.err 400 { error := "Invalid email format",
                details := "Please provide a valid email address" }, users)
  else if password.length < 6 then
    (.err 400 { error := "Password too weak",
                details := "Password must be at least 6 characters long" }, users)
  else
    let normalizedEmail := jsTrim (jsToLower email)
    match User.create hashFn users nextId now normalizedEmail password with
    | .error _ =>
        (.err 409 { error := "Email already registered",
                    details := "An account with this email already exists. Try logging in instead." },
         users)
    | .ok (user, users2) =>
        (.okAuth 201 "User registered successfully" user.toSafeObject
          (generateToken secret now user.id), users2)

/-- `authController.login`: presence check, normalize the email, look the
identity up, verify the password (`compare` models `bcrypt.compare`), and
return the safe view plus a fresh token.  Both failure branches — unknown
email, and known email with a wrong password — build their `401` response
from the same literals. -/
def login (compare : String → String → Bool) (secret : String)
    (users : List User) (now : Nat) (email password : String) : AuthResponse :=
  if email == "" || password == "" then
    .err 400 { error := "Missing credentials",
               details := "Both email and password are required" }
  else
    let normalizedEmail := jsTrim (jsToLower email)
    match User.findByEmail users normalizedEmail with
    | none =>
        .err 401 { error := "Invalid credentials",
                   details := "Email or password is incorrect" }
    | some user =>
        if !(compare password user.passwordHash) then
          .err 401 { error := "Invalid credentials",
                     details := "Email or password is incorrect" }
        else
          .okAuth 200 "Login successful" user.toSafeObject
            (generateToken secret now user.id)

/-- `authController.getCurrentUser`: echoes the `req.user` the mandatory
middleware attached; 401 when it is absent. -/
def getCurrentUser (reqUser : Option SafeUser) : AuthResponse :=
  match reqUser with
  | none =>
      .err 401 { error := "Not authenticated",
                 details := "No valid authentication token provided" }
  | some u => .okUser 200 "User retrieved successfully" u

end authController

/-! ### Post model (backend/src/models/Post.js) -/

/-- A row of the `posts` table. -/
structure PostRow where
  id : Nat
  title : String
  content : String
  authorId : Nat
  createdAt : Nat
deriving Repr, DecidableEq

/-- The in-memory `Post` object: a row joined (LEFT JOIN) with the author's
email. -/
structure Post where
  id : Nat
  title : String
  content : String
  authorId : Nat
  createdAt : Nat
  authorEmail : Option String
deriving Repr, DecidableEq

/-- The `LEFT JOIN users ON posts.authorId = users.id` used by
`Post.findById` / `Post.findAll`. -/
def joinAuthor (users : List User) (r : PostRow) : Post :=
  { id := r.id, title := r.title, content := r.content,
    authorId := r.authorId, createdAt := r.createdAt,
    authorEmail := (User.findById users r.authorId).map User.email }

/-- `Post.findById`: the joined row with that id, or null. -/
def Post.findById (users : List User) (store : List PostRow) (id : Nat) :
    Option Post :=
  (store.find? (fun r => r.id == id)).map (joinAuthor users)

/-- Insertion step for `ORDER BY posts.createdAt DESC`. -/
def insertByCreatedAtDesc (p : Post) : List Post → List Post
  | [] => [p]
  | q :: qs =>
      if p.createdAt ≤ q.createdAt then q :: insertByCreatedAtDesc p qs
      else p :: q :: qs

/-- `ORDER BY posts.createdAt DESC` (ties keep no promised order, matching
SQLite). -/
def sortByCreatedAtDesc : List Post → List Post
  | [] => []
  | p :: ps => insertByCreatedAtDesc p (sortByCreatedAtDesc ps)

/-- `Post.findAll(authorId = null)`: optional author filter (JS truthiness:
`null` and `0` both mean "no filter"), join, newest first. -/
def Post.findAll (users : List User) (store : List PostRow)
    (authorFilter : Option Nat := none) : List Post :=
  let rows :=
    match authorFilter with
    | some a =>
        if a != 0 then store.filter (fun (r : PostRow) => r.authorId == a)
        else store
    | none => store
  sortByCreatedAtDesc (rows.map (joinAuthor users))

/-- `Post.findByAuthor`: wrapper around `findAll` with a filter. -/
def Post.findByAuthor (users : List User) (store : List PostRow)
    (authorId : Nat) : List Post :=
  Post.findAll users store (some authorId)

/-- `Post.create(title, content, authorId)`: presence/non-blank validation,
trim, insert, then re-fetch the inserted row by its AUTOINCREMENT id (which
is fresh, so the re-fetched row is the one just inserted, joined with the
author).  `authorId = 0` models the falsy `!authorId` check. -/
def Post.create (users : List User) (store : List PostRow) (nextId now : Nat)
    (title content : String) (authorId : Nat) :
    Except String (Post × List PostRow) :=
  if title == "" || (jsTrim title).length == 0 then .error "Title is required"
  else if content == "" || (jsTrim content).length == 0 then
    .error "Content is required"
  else if authorId == 0 then .error "Author ID is required"
  else
    let row : PostRow := { id := nextId, title := jsTrim title,
                           content := jsTrim content, authorId := authorId,
                           createdAt := now }
    .ok (joinAuthor users row, store ++ [row])

/-- The two failures `Post.prototype.update` can throw: the ownership error
(`'You can only edit your own posts'`) and a field-validation error. -/
inductive UpdateErr where
  | notOwner
  | validation (msg : String)
deriving Repr, DecidableEq

/-- `Post.prototype.update(title, content, requestingUserId)`: the ownership
check runs FIRST, then field validation; on success the returned object
carries the trimmed fields and everything else unchanged.  The matching SQL
write is `runUpdatePosts` below. -/
def Post.update (p : Post) (title content : String)
    (requestingUserId : Nat) : Except UpdateErr Post :=
  if p.authorId != requestingUserId then .error .notOwner
  else if title == "" || (jsTrim title).length == 0 then
    .error (.validation "Title is required")
  else if content == "" || (jsTrim content).length == 0 then
    .error (.validation "Content is required")
  else .ok { p with title := jsTrim title, content := jsTrim content }

/-- `UPDATE posts SET title = ?, content = ? WHERE id = ?`. -/
def runUpdatePosts (store : List PostRow) (id : Nat)
    (title content : String) : List PostRow :=
  store.map (fun (r : PostRow) =>
    if r.id == id then { r with title := title, content := content } else r)

/-- The two failures `Post.prototype.delete` can throw: the ownership error
(`'You can only delete your own posts'`) and the zero-changes error. -/
inductive DeleteErr where
  | notOwner
  | missingRow
deriving Repr, DecidableEq

/-- `Post.prototype.delete(requestingUserId)`: ownership check, then
`DELETE FROM posts WHERE id = ?`, erroring when no row was removed. -/
def Post.delete (p : Post) (requestingUserId : Nat)
    (store : List PostRow) : Except DeleteErr (List PostRow) :=
  if p.authorId != requestingUserId then .error .notOwner
  else
    let remaining := store.filter (fun r => r.id != p.id)
    if remaining.length == store.length then .error .missingRow
    else .ok remaining

/-- The last index of `c` in the list, or none — `String.lastIndexOf`
returning `-1` is modelled by `none`. -/
def lastIndexOfChar (c : Char) : List Char → Option Nat
  | [] => none
  | x :: xs =>
      match lastIndexOfChar c xs with
      | some i => some (i + 1)
      | none => if x = c then some 0 else none

/-- The truncation step of `Post.prototype.toSummary` for over-long content:
`truncated = content.substring(0, max)`, `lastSpace = truncated.lastIndexOf(' ')`,
result `truncated.substring(0, lastSpace) + '...'` — with JS clamping
`substring(0, -1)` to the empty string when there is no space. -/
def jsTruncateAtLastSpace (content : String) (maxContentLength : Nat) : String :=
  let truncated := content.toList.take maxContentLength
  match lastIndexOfChar ' ' truncated with
  | none => String.mk [] ++ "..."
  | some lastSpace => String.mk (truncated.take lastSpace) ++ "..."

/-- The shape returned by `Post.prototype.toObject` and `toSummary`. -/
structure PostView where
  id : Nat
  title : String
  content : String
  authorId : Nat
  authorEmail : Option String
  createdAt : Nat
deriving Repr, DecidableEq

/-- `Post.prototype.toObject`: the full post. -/
def Post.toObject (p : Post) : PostView :=
  { id := p.id, title := p.title, content := p.content,
    authorId := p.authorId, authorEmail := p.authorEmail,
    createdAt := p.createdAt }

/-- `Post.prototype.toSummary(maxContentLength = 200)`: same fields but the
content replaced by a preview when it exceeds `maxContentLength`. -/
def Post.toSummary (p : Post) (maxContentLength : Nat := 200) : PostView :=
  let summary :=
    if maxContentLength < p.content.length then
      jsTruncateAtLastSpace p.content maxContentLength
    else p.content
  { id := p.id, title := p.title, content := summary,
    authorId := p.authorId, authorEmail := p.authorEmail,
    createdAt := p.createdAt }

/-! ### Post controller (backend/src/controllers/postController.js) -/

/-- A response from the post controller endpoints. -/
inductive PostResponse where
  | err (status : Nat) (body : ErrorBody)
  | okPost (status : Nat) (message : String) (post : PostView)
  | okList (status : Nat) (message : String) (posts : List PostView) (count : Nat)
  | noContent
deriving Repr, DecidableEq

namespace postController

/-- `postController.createPost`: auth check, presence check, the ≥3 / ≥10
trimmed-length minimums, then `Post.create`; model-level validation errors
fall into the generic 500 catch. -/
def createPost (users : List User) (store : List PostRow) (nextId now : Nat)
    (reqUserId : Option Nat) (title content : String) :
    PostResponse × List PostRow :=
  match reqUserId with
  | none =>
      (.err 401 { error := "Authentication required",
                  details := "You must be logged in to create a post" }, store)
  | some uid =>
      if title == "" || content == "" then
        (.err 400 { error := "Missing required fields",
                    details := "Both title and content are required" }, store)
      else if (jsTrim title).length < 3 then
        (.err 400 { error := "Title too short",
                    details := "Title must be at least 3 characters long" }, store)
      else if (jsTrim content).length < 10 then
        (.err 400 { error := "Content too short",
                    details := "Content must be at least 10 characters long" }, store)
      else
        match Post.create users store nextId now title content uid with
        | .error _ =>
            (.err 500 { error := "Failed to create post",
                        details := "An unexpected error occurred. Please try again later." },
             store)
        | .ok (post, store2) =>
            (.okPost 201 "Post created successfully" post.toObject, store2)

/-- `postController.getAllPosts`: optional author filter from the query
string; a present-but-invalid filter (`isNaN` or ≤ 0, modelled by `0`) is a
400; a valid filter must name an existing user; lists are summaries. -/
def getAllPosts (users : List User) (store : List PostRow)
    (author : Option Nat) : PostResponse :=
  match author with
  | none =>
      let posts := Post.findAll users store none
      .okList 200 "All posts retrieved successfully"
        (posts.map (fun p => p.toSummary)) posts.length
  | some a =>
      if a == 0 then
        .err 400 { error := "Invalid author ID",
                   details := "Author ID must be a positive number" }
      else
        match User.findById users a with
        | none =>
            .err 404 { error := "Author not found",
                       details := "No user found with ID " ++ toString a }
        | some _ =>
            let posts := Post.findAll users store (some a)
            .okList 200
              ("Posts by author " ++ toString a ++ " retrieved successfully")
              (posts.map (fun p => p.toSummary)) posts.length

/-- `postController.getPostById`: id validation, then the FULL post via
`toObject` (no truncation). -/
def getPostById (users : List User) (store : List PostRow)
    (postId : Nat) : PostResponse :=
  if postId == 0 then
    .err 400 { error := "Invalid post ID",
               details := "Post ID must be a positive number" }
  else
    match Post.findById users store postId with
    | none =>
        .err 404 { error := "Post not found",
                   details := "No post found with ID " ++ toString postId }
    | some p => .okPost 200 "Post retrieved successfully" p.toObject

/-- `postController.updatePost`: auth check, id validation, presence check,
load, then `Post.update`; the ownership error maps to 403, other model
errors to the generic 500; on success the trimmed fields are persisted. -/
def updatePost (users : List User) (store : List PostRow)
    (reqUserId : Option Nat) (postId : Nat) (title content : String) :
    PostResponse × List PostRow :=
  match reqUserId with
  | none =>
      (.err 401 { error := "Authentication required",
                  details := "You must be logged in to update a post" }, store)
  | some uid =>
      if postId == 0 then
        (.err 400 { error := "Invalid post ID",
                    details := "Post ID must be a positive number" }, store)
      else if title == "" || content == "" then
        (.err 400 { error := "Missing required fields",
                    details := "Both title and content are required" }, store)
      else
        match Post.findById users store postId with
        | none =>
            (.err 404 { error := "Post not found",
                        details := "No post found with ID " ++ toString postId },
             store)
        | some post =>
            match Post.update post title content uid with
            | .error .notOwner =>
                (.err 403 { error := "Permission denied",
                            details := "You can only edit your own posts" }, store)
            | .error (.validation _) =>
                (.err 500 { error := "Failed to update post",
                            details := "An unexpected error occurred. Please try again later." },
                 store)
            | .ok updated =>
                (.okPost 200 "Post updated successfully" updated.toObject,
                 runUpdatePosts store updated.id updated.title updated.content)

/-- `postController.deletePost`: auth check, id validation, load, then
`Post.delete`; ownership error maps to 403, the zero-changes error to 500;
success is 204 No Content. -/
def deletePost (users : List User) (store : List PostRow)
    (reqUserId : Option Nat) (postId : Nat) :
    PostResponse × List PostRow :=
  match reqUserId with
  | none =>
      (.err 401 { error := "Authentication required",
                  details := "You must be logged in to delete a post" }, store)
  | some uid =>
      if postId == 0 then
        (.err 400 { error := "Invalid post ID",
                    details := "Post ID must be a positive number" }, store)
      else
        match Post.findById users store postId with
        | none =>
            (.err 404 { error := "Post not found",
                        details := "No post found with ID " ++ toString postId },
             store)
        | some post =>
            match Post.delete post uid store with
            | .error .notOwner =>
                (.err 403 { error := "Permission denied",
                            details := "You can only delete your own posts" }, store)
            | .error .missingRow =>
                (.err 500 { error := "Failed to delete post",
                            details := "An unexpected error occurred. Please try again later." },
                 store)
            | .ok store2 => (.noContent, store2)

/-- `postController.getMyPosts`: auth check, then the caller's posts as
summaries. -/
def getMyPosts (users : List User) (store : List PostRow)
    (reqUserId : Option Nat) : PostResponse :=
  match reqUserId with
  | none =>
      .err 401 { error := "Authentication required",
                 details := "You must be logged in to view your posts" }
  | some uid =>
      let posts := Post.findByAuthor users store uid
      .okList 200 "Your posts retrieved successfully"
        (posts.map (fun p => p.toSummary)) posts.length

end postController

/-! ### Concrete fixtures used by witnesses and counterexamples -/

/-- A registered identity. -/
def aliceU : User :=
  { id := 1, email := "a@x.com", passwordHash := "h", createdAt := 0 }

/-- A second registered identity. -/
def bobU : User :=
  { id := 2, email := "b@y.com", passwordHash := "g", createdAt := 5 }

/-- A stored post owned by identity 1. -/
def demoRow : PostRow :=
  { id := 1, title := "Valid Title", content := "This content is long enough",
    authorId := 1, createdAt := 10 }

/-- A payload whose issuer and audience are NOT the platform's strings. -/
def evilPayload : JwtPayload :=
  { userId := 1, iat := 0, exp := 1000, iss := "evil", aud := "evil-aud" }

/-- `evilPayload` correctly signed with the server secret `"s"`. -/
def evilToken : JwtToken :=
  { payload := evilPayload, sig := jwtSignature "s" evilPayload }

/-! ### C9 -/

/-- C9: verifying the token produced by `generateToken(id, ttl)` strictly
before its expiry succeeds with subject `id` (and the fixed issuer and
audience), and verifying it at or after the expiry yields the expired
rejection, not the malformed one. -/
theorem C9_issue_then_verify :
    ∀ (secret : String) (issuedAt uid ttl t : Nat),
      (t < issuedAt + ttl →
        jwtVerify secret t (generateToken secret issuedAt uid ttl) =
          .ok { userId := uid, iat := issuedAt, exp := issuedAt + ttl,
                iss := "blog-platform", aud := "blog-platform-users" }) ∧
      (issuedAt + ttl ≤ t →
        jwtVerify secret t (generateToken secret issuedAt uid ttl) =
          .error .expired) := by
  intro secret issuedAt uid ttl t
  refine ⟨fun hlt => ?_, fun hge => ?_⟩
  · simp [jwtVerify, generateToken, Nat.not_le.mpr hlt]
  · simp [jwtVerify, generateToken, hge]

/-- Witness for C9 at secret `"s"`, issue time 0, subject 7, ttl 100,
checked at times 50 and 100. -/
theorem C9_issue_then_verify_witness :
    jwtVerify "s" 50 (generateToken "s" 0 7 100) =
      .ok { userId := 7, iat := 0, exp := 100,
            iss := "blog-platform", aud := "blog-platform-users" } ∧
    jwtVerify "s" 100 (generateToken "s" 0 7 100) = .error .expired :=
  ⟨(C9_issue_then_verify "s" 0 7 100 50).1 (by decide),
   (C9_issue_then_verify "s" 0 7 100 100).2 (by decide)⟩

/-! ### C5 -/

/-- C5: `login` with a non-existent (normalized) email and `login` with an
existing email plus a wrong password produce the very same error response —
same status, same `error`, same `details`. -/
theorem C5_login_enumeration_resistance :
    ∀ (compare : String → String → Bool) (secret : String)
      (users : List User) (now : Nat) (e1 p1 e2 p2 : String) (u : User),
      e1 ≠ "" → p1 ≠ "" → e2 ≠ "" → p2 ≠ "" →
      User.findByEmail users (jsTrim (jsToLower e1)) = none →
      User.findByEmail users (jsTrim (jsToLower e2)) = some u →
      compare p2 u.passwordHash = false →
      authController.login compare secret users now e1 p1 =
        authController.login compare secret users now e2 p2 ∧
      authController.login compare secret users now e1 p1 =
        .err 401 { error := "Invalid credentials",
                   details := "Email or password is incorrect" } := by
  intro compare secret users now e1 p1 e2 p2 u he1 hp1 he2 hp2 hf1 hf2 hcmp
  have h1 : authController.login compare secret users now e1 p1 =
      .err 401 { error := "Invalid credentials",
                 details := "Email or password is incorrect" } := by
    simp [authController.login, he1, hp1, hf1]
  have h2 : authController.login compare secret users now e2 p2 =
      .err 401 { error := "Invalid credentials",
                 details := "Email or password is incorrect" } := by
    simp [authController.login, he2, hp2, hf2, hcmp]
  exact ⟨h1.trans h2.symm, h1⟩

/-- Witness for C5: a store holding only `aliceU`, an unknown email
`"z@z.com"` versus `aliceU`'s email with a rejected password. -/
theorem C5_login_enumeration_resistance_witness :
    authController.login (fun _ _ => false) "s" [aliceU] 0 "z@z.com" "pw" =
      authController.login (fun _ _ => false) "s" [aliceU] 0 "a@x.com" "pw" ∧
    authController.login (fun _ _ => false) "s" [aliceU] 0 "z@z.com" "pw" =
      .err 401 { error := "Invalid credentials",
                 details := "Email or password is incorrect" } :=
  C5_login_enumeration_resistance (fun _ _ => false) "s" [aliceU] 0
    "z@z.com" "pw" "a@x.com" "pw" aliceU
    (by decide) (by decide) (by decide) (by decide)
    (by decide) (by decide) rfl

/-! ### C8 -/

/-- C8: optional-mode resolution never rejects: it produces the anonymous
marker `{user := null, userId := null}` exactly when mandatory mode would
reject, and attaches exactly what mandatory mode attaches when mandatory
mode proceeds. -/
theorem C8_optional_mirrors_mandatory :
    ∀ (secret : String) (now : Nat) (users : List User) (h : AuthHeader),
      optionalAuth secret now users h =
        (match authenticateToken secret now users h with
         | .proceed u i => { user := some u, userId := some i }
         | .reject _ _ _ => { user := none, userId := none }) := by
  intro secret now users h
  cases h with
  | missing => simp [optionalAuth, authenticateToken]
  | bearerEmpty => simp [optionalAuth, authenticateToken]
  | bearer t =>
      cases hv : jwtVerify secret now t with
      | error e =>
          cases e <;> simp [optionalAuth, authenticateToken, hv]
      | ok decoded =>
          cases hf : User.findById users decoded.userId with
          | none => simp [optionalAuth, authenticateToken, hv, hf]
          | some user => simp [optionalAuth, authenticateToken, hv, hf]

/-! ### C3 -/

/-- C3: the mandatory middleware's exact case analysis — no bearer value
(absent header or empty token) rejects as missing credential; an expired
verification rejects as expired; a malformed one rejects as malformed; a
verified subject that does not resolve through `User.findById` rejects as
identity gone; a verified, resolved subject gets the safe view and raw id
attached. -/
theorem C3_mandatory_case_analysis :
    ∀ (secret : String) (now : Nat) (users : List User),
      (authenticateToken secret now users .missing =
        .reject 401 "Access denied. No valid token provided."
          "Please include a valid JWT token in the Authorization header") ∧
      (authenticateToken secret now users .bearerEmpty =
        .reject 401 "Access denied. Token format is invalid."
          "Token should be provided as: Bearer <your-token>") ∧
      (∀ t, jwtVerify secret now t = .error .expired →
        authenticateToken secret now users (.bearer t) =
          .reject 401 "Token has expired"
            "Please log in again to get a new token") ∧
      (∀ t, jwtVerify secret now t = .error .malformed →
        authenticateToken secret now users (.bearer t) =
          .reject 401 "Invalid token"
            "The provided token is malformed or invalid") ∧
      (∀ t decoded, jwtVerify secret now t = .ok decoded →
        User.findById users decoded.userId = none →
        authenticateToken secret now users (.bearer t) =
          .reject 401 "User no longer exists"
            "The account associated with this token has been removed") ∧
      (∀ t decoded user, jwtVerify secret now t = .ok decoded →
        User.findById users decoded.userId = some user →
        authenticateToken secret now users (.bearer t) =
          .proceed user.toSafeObject user.id) := by
  intro secret now users
  refine ⟨rfl, rfl, fun t hv => ?_, fun t hv => ?_,
    fun t decoded hv hf => ?_, fun t decoded user hv hf => ?_⟩
  · simp [authenticateToken, hv]
  · simp [authenticateToken, hv]
  · simp [authenticateToken, hv, hf]
  · simp [authenticateToken, hv, hf]

/-- Witness for C3: all five outcomes at concrete inputs — missing header,
empty bearer, an expired token, a forged token, a token whose subject is
gone, and a token that resolves to `aliceU`. -/
theorem C3_mandatory_case_analysis_witness :
    (authenticateToken "s" 500 [aliceU] .missing =
      .reject 401 "Access denied. No valid token provided."
        "Please include a valid JWT token in the Authorization header") ∧
    (authenticateToken "s" 500 [aliceU] .bearerEmpty =
      .reject 401 "Access denied. Token format is invalid."
        "Token should be provided as: Bearer <your-token>") ∧
    (authenticateToken "s" 2000 [aliceU] (.bearer (generateToken "s" 0 1 100)) =
      .reject 401 "Token has expired"
        "Please log in again to get a new token") ∧
    (authenticateToken "s" 500 [aliceU]
        (.bearer { payload := evilPayload, sig := "forged" }) =
      .reject 401 "Invalid token"
        "The provided token is malformed or invalid") ∧
    (authenticateToken "s" 50 [aliceU] (.bearer (generateToken "s" 0 9 100)) =
      .reject 401 "User no longer exists"
        "The account associated with this token has been removed") ∧
    (authenticateToken "s" 50 [aliceU] (.bearer (generateToken "s" 0 1 100)) =
      .proceed aliceU.toSafeObject aliceU.id) :=
  ⟨(C3_mandatory_case_analysis "s" 500 [aliceU]).1,
   (C3_mandatory_case_analysis "s" 500 [aliceU]).2.1,
   (C3_mandatory_case_analysis "s" 2000 [aliceU]).2.2.1
     (generateToken "s" 0 1 100) rfl,
   (C3_mandatory_case_analysis "s" 500 [aliceU]).2.2.2.1
     { payload := evilPayload, sig := "forged" } rfl,
   (C3_mandatory_case_analysis "s" 50 [aliceU]).2.2.2.2.1
     (generateToken "s" 0 9 100) (generateToken "s" 0 9 100).payload
     rfl rfl,
   (C3_mandatory_case_analysis "s" 50 [aliceU]).2.2.2.2.2
     (generateToken "s" 0 1 100) (generateToken "s" 0 1 100).payload aliceU
     rfl rfl⟩

/-! ### C1 -/

/-- C1 counterexample: `evilToken` carries issuer `"evil"` and audience
`"evil-aud"` — both wrong — yet `authenticateToken` accepts it and attaches
its subject to the request, because `jwt.verify` is called without
issuer/audience options.  The claim says any token failing the issuer or
audience check is rejected and its subject never attached. -/
theorem C1_counterexample :
    evilToken.payload.iss ≠ "blog-platform" ∧
    evilToken.payload.aud ≠ "blog-platform-users" ∧
    authenticateToken "s" 500 [aliceU] (.bearer evilToken) =
      .proceed aliceU.toSafeObject aliceU.id := by
  refine ⟨by decide, by decide, rfl⟩

/-- C1 (amended): before any claim is trusted the verifier checks the
signature and the expiry — a token reaching `proceed` has a valid signature,
is unexpired, and its subject resolves — and a token failing the signature
or the expiry check is rejected; the issuer and audience strings are set at
issuance but are NOT validated at verification. -/
theorem C1_signature_expiry_checked :
    (∀ (secret : String) (now : Nat) (users : List User) (t : JwtToken)
       (u : SafeUser) (i : Nat),
       authenticateToken secret now users (.bearer t) = .proceed u i →
         t.sig = jwtSignature secret t.payload ∧ now < t.payload.exp ∧
         ∃ user, User.findById users t.payload.userId = some user ∧
           u = user.toSafeObject ∧ i = user.id) ∧
    (∀ (secret : String) (now : Nat) (users : List User) (t : JwtToken),
       t.sig ≠ jwtSignature secret t.payload →
       authenticateToken secret now users (.bearer t) =
         .reject 401 "Invalid token"
           "The provided token is malformed or invalid") ∧
    (∀ (secret : String) (now : Nat) (users : List User) (t : JwtToken),
       t.sig = jwtSignature secret t.payload → t.payload.exp ≤ now →
       authenticateToken secret now users (.bearer t) =
         .reject 401 "Token has expired"
           "Please log in again to get a new token") ∧
    (∀ (secret : String) (now uid ttl : Nat),
       (generateToken secret now uid ttl).payload.iss = "blog-platform" ∧
       (generateToken secret now uid ttl).payload.aud = "blog-platform-users") := by
  refine ⟨?_, ?_, ?_, fun secret now uid ttl => ⟨rfl, rfl⟩⟩
  · intro secret now users t u i h
    by_cases hsig : t.sig = jwtSignature secret t.payload
    · by_cases hexp : t.payload.exp ≤ now
      · simp [authenticateToken, jwtVerify, hsig, hexp] at h
      · cases hf : User.findById users t.payload.userId with
        | none => simp [authenticateToken, jwtVerify, hsig, hexp, hf] at h
        | some user =>
            simp [authenticateToken, jwtVerify, hsig, hexp, hf] at h
            exact ⟨hsig, Nat.lt_of_not_le hexp, user, rfl, h.1.symm, h.2.symm⟩
    · simp [authenticateToken, jwtVerify, hsig] at h
  · intro secret now users t hsig
    simp [authenticateToken, jwtVerify, hsig]
  · intro secret now users t hsig hexp
    simp [authenticateToken, jwtVerify, hsig, hexp]

/-- Witness for C1 (amended): the expiry rejection at a concrete expired
token, and the signature rejection at a concretely forged one. -/
theorem C1_signature_expiry_checked_witness :
    authenticateToken "s" 2000 [aliceU] (.bearer (generateToken "s" 0 1 100)) =
      .reject 401 "Token has expired"
        "Please log in again to get a new token" ∧
    authenticateToken "s" 500 [aliceU]
        (.bearer { payload := evilPayload, sig := "forged" }) =
      .reject 401 "Invalid token"
        "The provided token is malformed or invalid" :=
  ⟨C1_signature_expiry_checked.2.2.1 "s" 2000 [aliceU]
     (generateToken "s" 0 1 100) rfl (by decide),
   C1_signature_expiry_checked.2.1 "s" 500 [aliceU]
     { payload := evilPayload, sig := "forged" } (by decide)⟩

/-! ### C2 -/

/-- C2: the ownership gate.  `Post.update` and `Post.delete` invoked by any
identity `b` other than the post's owner fail with the ownership error —
before any validation and before any write — and the controllers map that
error to the 403 Forbidden response, returning the store unchanged; the
Forbidden response is distinct from the NotFound (404) and the
Unauthenticated (401) responses. -/
theorem C2_ownership_gate :
    (∀ (p : Post) (t c : String) (b : Nat), p.authorId ≠ b →
       Post.update p t c b = .error .notOwner) ∧
    (∀ (p : Post) (b : Nat) (store : List PostRow), p.authorId ≠ b →
       Post.delete p b store = .error .notOwner) ∧
    (∀ (users : List User) (store : List PostRow) (pid : Nat) (post : Post)
       (b : Nat) (t c : String),
       Post.findById users store pid = some post → post.authorId ≠ b →
       pid ≠ 0 → t ≠ "" → c ≠ "" →
       postController.updatePost users store (some b) pid t c =
         (.err 403 { error := "Permission denied",
                     details := "You can only edit your own posts" }, store)) ∧
    (∀ (users : List User) (store : List PostRow) (pid : Nat) (post : Post)
       (b : Nat),
       Post.findById users store pid = some post → post.authorId ≠ b →
       pid ≠ 0 →
       postController.deletePost users store (some b) pid =
         (.err 403 { error := "Permission denied",
                     details := "You can only delete your own posts" }, store)) ∧
    (∀ b1 b2 : ErrorBody,
       PostResponse.err 403 b1 ≠ PostResponse.err 404 b2 ∧
       PostResponse.err 403 b1 ≠ PostResponse.err 401 b2) := by
  refine ⟨?_, ?_, ?_, ?_, fun b1 b2 => by simp⟩
  · intro p t c b hb
    simp [Post.update, hb]
  · intro p b store hb
    simp [Post.delete, hb]
  · intro users store pid post b t c hfind hb hpid ht hc
    simp [postController.updatePost, hpid, ht, hc, hfind, Post.update, hb]
  · intro users store pid post b hfind hb hpid
    simp [postController.deletePost, hpid, hfind, Post.delete, hb]

/-- Witness for C2: identity 2 attempting to update and delete the post
owned by identity 1. -/
theorem C2_ownership_gate_witness :
    postController.updatePost [aliceU, bobU] [demoRow] (some 2) 1
        "New Title" "New content that is long" =
      (.err 403 { error := "Permission denied",
                  details := "You can only edit your own posts" }, [demoRow]) ∧
    postController.deletePost [aliceU, bobU] [demoRow] (some 2) 1 =
      (.err 403 { error := "Permission denied",
                  details := "You can only delete your own posts" }, [demoRow]) :=
  ⟨C2_ownership_gate.2.2.1 [aliceU, bobU] [demoRow] 1
     (joinAuthor [aliceU, bobU] demoRow) 2 "New Title" "New content that is long"
     rfl (by decide) (by decide) (by decide) (by decide),
   C2_ownership_gate.2.2.2.1 [aliceU, bobU] [demoRow] 1
     (joinAuthor [aliceU, bobU] demoRow) 2 rfl (by decide) (by decide)⟩

/-! ### C4 -/

/-- C4 counterexample: an owner-matched update with title `"ab"` (trimmed
length 2 < 3) and content `"x"` (trimmed length 1 < 10) is accepted with
200 and persisted — `updatePost` does not apply the create-time minimums,
so update is NOT validated under the same rules as create. -/
theorem C4_counterexample :
    (jsTrim "ab").length < 3 ∧ (jsTrim "x").length < 10 ∧
    postController.updatePost [aliceU] [demoRow] (some 1) 1 "ab" "x" =
      (.okPost 200 "Post updated successfully"
        { id := 1, title := "ab", content := "x", authorId := 1,
          authorEmail := some "a@x.com", createdAt := 10 },
       [{ id := 1, title := "ab", content := "x", authorId := 1,
          createdAt := 10 }]) :=
  ⟨by decide, by decide, rfl⟩

/-- C4 (amended): `createPost` enforces the trimmed minimums — title ≥ 3 and
content ≥ 10 — rejecting violations with a 400 ValidationError and leaving
the store unchanged; `updatePost` re-validates only presence and
non-blankness, so an owner-matched update whose trimmed fields are non-empty
is persisted regardless of those minimums. -/
theorem C4_create_minimums_update_presence_only :
    (∀ (users : List User) (store : List PostRow) (nextId now uid : Nat)
       (t c : String),
       t ≠ "" → c ≠ "" → (jsTrim t).length < 3 →
       postController.createPost users store nextId now (some uid) t c =
         (.err 400 { error := "Title too short",
                     details := "Title must be at least 3 characters long" },
          store)) ∧
    (∀ (users : List User) (store : List PostRow) (nextId now uid : Nat)
       (t c : String),
       t ≠ "" → c ≠ "" → 3 ≤ (jsTrim t).length → (jsTrim c).length < 10 →
       postController.createPost users store nextId now (some uid) t c =
         (.err 400 { error := "Content too short",
                     details := "Content must be at least 10 characters long" },
          store)) ∧
    (∀ (users : List User) (store : List PostRow) (pid : Nat) (post : Post)
       (uid : Nat) (t c : String),
       Post.findById users store pid = some post → post.authorId = uid →
       pid ≠ 0 → t ≠ "" → c ≠ "" →
       (jsTrim t).length ≠ 0 → (jsTrim c).length ≠ 0 →
       postController.updatePost users store (some uid) pid t c =
         (.okPost 200 "Post updated successfully"
            (Post.toObject { post with title := jsTrim t, content := jsTrim c }),
          runUpdatePosts store post.id (jsTrim t) (jsTrim c))) := by
  refine ⟨?_, ?_, ?_⟩
  · intro users store nextId now uid t c ht hc h3
    simp [postController.createPost, ht, hc, h3]
  · intro users store nextId now uid t c ht hc h3 h10
    simp [postController.createPost, ht, hc, Nat.not_lt.mpr h3, h10]
  · intro users store pid post uid t c hfind hown hpid ht hc htt hct
    simp [postController.updatePost, hpid, ht, hc, hfind, Post.update,
      hown, htt, hct]

/-- Witness for C4 (amended): create with a 2-character title is rejected
with the store unchanged, while an owner-matched update to a 2-character
title and 2-character content is persisted. -/
theorem C4_create_minimums_update_presence_only_witness :
    postController.createPost [aliceU] [] 7 0 (some 1) "ab"
        "This content is long enough" =
      (.err 400 { error := "Title too short",
                  details := "Title must be at least 3 characters long" }, []) ∧
    postController.updatePost [aliceU] [demoRow] (some 1) 1 "Hi" "ok" =
      (.okPost 200 "Post updated successfully"
         (Post.toObject { joinAuthor [aliceU] demoRow with
                          title := jsTrim "Hi", content := jsTrim "ok" }),
       runUpdatePosts [demoRow] (joinAuthor [aliceU] demoRow).id
         (jsTrim "Hi") (jsTrim "ok")) :=
  ⟨C4_create_minimums_update_presence_only.1 [aliceU] [] 7 0 1 "ab"
     "This content is long enough" (by decide) (by decide) (by decide),
   C4_create_minimums_update_presence_only.2.2 [aliceU] [demoRow] 1
     (joinAuthor [aliceU] demoRow) 1 "Hi" "ok" rfl rfl (by decide)
     (by decide) (by decide) (by decide) (by decide)⟩

/-! ### C6 -/

/-- The fields C6 asserts are frozen across updates: id, owner identity id,
creation timestamp. -/
def ownerProj (r : PostRow) : Nat × Nat × Nat :=
  (r.id, r.authorId, r.createdAt)

/-- One invocation of the update endpoint: requesting identity (or none),
target post id, new title, new content. -/
structure UpdateReq where
  user : Option Nat
  postId : Nat
  title : String
  content : String

/-- Run a sequence of update invocations against the store. -/
def applyUpdates (users : List User) (store : List PostRow) :
    List UpdateReq → List PostRow
  | [] => store
  | r :: rs =>
      applyUpdates users
        (postController.updatePost users store r.user r.postId
          r.title r.content).2 rs

theorem runUpdatePosts_ownerProj (store : List PostRow) (i : Nat)
    (t c : String) :
    (runUpdatePosts store i t c).map ownerProj = store.map ownerProj := by
  unfold runUpdatePosts
  rw [List.map_map]
  apply List.map_congr_left
  intro a _
  by_cases h : a.id == i <;> simp [Function.comp, h, ownerProj]

theorem updatePost_ownerProj (users : List User) (store : List PostRow)
    (ru : Option Nat) (pid : Nat) (t c : String) :
    ((postController.updatePost users store ru pid t c).2).map ownerProj =
      store.map ownerProj := by
  unfold postController.updatePost
  cases ru with
  | none => rfl
  | some uid =>
      dsimp only
      split
      · rfl
      · split
        · rfl
        · split
          · rfl
          · split
            · rfl
            · rfl
            · exact runUpdatePosts_ownerProj ..

/-- C6: a successful owner update changes only the title and the content —
the returned post keeps its id, owner id, creation time (and author email);
the SQL write preserves id, owner id and creation time of every stored row;
hence no sequence of update invocations ever changes any post's owner. -/
theorem C6_update_frame :
    (∀ (p : Post) (t c : String) (uid : Nat) (p2 : Post),
       Post.update p t c uid = .ok p2 →
       p2.id = p.id ∧ p2.authorId = p.authorId ∧ p2.createdAt = p.createdAt ∧
       p2.authorEmail = p.authorEmail) ∧
    (∀ (store : List PostRow) (i : Nat) (t c : String),
       (runUpdatePosts store i t c).map ownerProj = store.map ownerProj) ∧
    (∀ (users : List User) (reqs : List UpdateReq) (store : List PostRow),
       (applyUpdates users store reqs).map ownerProj = store.map ownerProj) := by
  refine ⟨?_, runUpdatePosts_ownerProj, ?_⟩
  · intro p t c uid p2 h
    unfold Post.update at h
    split at h
    · cases h
    · split at h
      · cases h
      · split at h
        · cases h
        · cases h
          exact ⟨rfl, rfl, rfl, rfl⟩
  · intro users reqs
    induction reqs with
    | nil => intro store; rfl
    | cons r rs ih =>
        intro store
        rw [applyUpdates, ih, updatePost_ownerProj]

/-- The post of `demoRow` after the owner rewrites its title and content. -/
def demoUpdated : Post :=
  { joinAuthor [aliceU] demoRow with
    title := jsTrim "New Title"
    content := jsTrim "Updated content here" }

/-- Witness for C6: a concrete successful owner update keeps id 1, owner 1
and creation time 10. -/
theorem C6_update_frame_witness :
    (joinAuthor [aliceU] demoRow).id = 1 ∧
    demoUpdated.id = (joinAuthor [aliceU] demoRow).id ∧
    demoUpdated.authorId = (joinAuthor [aliceU] demoRow).authorId ∧
    demoUpdated.createdAt = (joinAuthor [aliceU] demoRow).createdAt :=
  have h := C6_update_frame.1 (joinAuthor [aliceU] demoRow)
    "New Title" "Updated content here" 1 demoUpdated rfl
  ⟨rfl, h.1, h.2.1, h.2.2.1⟩

/-! ### C7 -/

/-- C7: every externally visible representation of an identity is the safe
view `{id, email, createdAt}` of a stored user and never carries the
password digest: the safe view is insensitive to the digest and exposes
exactly those three attributes; the user object in a successful
registration response, in a successful login response, and attached to the
request by the mandatory middleware is the safe view of a stored user; the
current-identity lookup echoes exactly the attached safe view. -/
theorem C7_safe_view_everywhere :
    (∀ (u : User) (d : String),
       User.toSafeObject { u with passwordHash := d } = User.toSafeObject u) ∧
    (∀ u : User, (User.toSafeObject u).id = u.id ∧
       (User.toSafeObject u).email = u.email ∧
       (User.toSafeObject u).createdAt = u.createdAt) ∧
    (∀ (hashFn : String → String) (secret : String) (users : List User)
       (nextId now : Nat) (email password : String) (st : Nat) (msg : String)
       (v : SafeUser) (tok : JwtToken) (users2 : List User),
       authController.register hashFn secret users nextId now email password =
         (.okAuth st msg v tok, users2) →
       ∃ u ∈ users2, v = u.toSafeObject) ∧
    (∀ (compare : String → String → Bool) (secret : String)
       (users : List User) (now : Nat) (email password : String) (st : Nat)
       (msg : String) (v : SafeUser) (tok : JwtToken),
       authController.login compare secret users now email password =
         .okAuth st msg v tok →
       ∃ u ∈ users, v = u.toSafeObject) ∧
    (∀ (secret : String) (now : Nat) (users : List User) (h : AuthHeader)
       (v : SafeUser) (i : Nat),
       authenticateToken secret now users h = .proceed v i →
       ∃ u ∈ users, v = u.toSafeObject ∧ i = u.id) ∧
    (∀ v : SafeUser,
       authController.getCurrentUser (some v) =
         .okUser 200 "User retrieved successfully" v) := by
  refine ⟨fun u d => rfl, fun u => ⟨rfl, rfl, rfl⟩, ?_, ?_, ?_, fun v => rfl⟩
  · intro hashFn secret users nextId now email password st msg v tok users2 h
    by_cases h1 : (email == "" || password == "") = true
    · simp [authController.register, h1] at h
    · by_cases h2 : emailRegexTest email = true
      · by_cases h3 : password.length < 6
        · simp [authController.register, h1, h2, h3] at h
        · cases hfe : User.findByEmail users (jsTrim (jsToLower email)) with
          | some w =>
              simp [authController.register, User.create, h1, h2, h3, hfe] at h
          | none =>
              simp [authController.register, User.create, h1, h2, h3, hfe] at h
              obtain ⟨⟨hst, hmsg, hv, htok⟩, hu2⟩ := h
              refine ⟨_, ?_, hv.symm⟩
              rw [← hu2]
              simp
      · simp [authController.register, h1, h2] at h
  · intro compare secret users now email password st msg v tok h
    by_cases h1 : (email == "" || password == "") = true
    · simp [authController.login, h1] at h
    · cases hf : User.findByEmail users (jsTrim (jsToLower email)) with
      | none => simp [authController.login, h1, hf] at h
      | some u =>
          by_cases hcmp : (!compare password u.passwordHash) = true
          · simp [authController.login, h1, hf, hcmp] at h
          · simp [authController.login, h1, hf, hcmp] at h
            exact ⟨u, List.mem_of_find?_eq_some hf, h.2.2.1.symm⟩
  · intro secret now users h v i hp
    cases h with
    | missing => cases hp
    | bearerEmpty => cases hp
    | bearer t =>
        by_cases hsig : t.sig = jwtSignature secret t.payload
        · by_cases hexp : t.payload.exp ≤ now
          · simp [authenticateToken, jwtVerify, hsig, hexp] at hp
          · cases hf : User.findById users t.payload.userId with
            | none => simp [authenticateToken, jwtVerify, hsig, hexp, hf] at hp
            | some u =>
                simp [authenticateToken, jwtVerify, hsig, hexp, hf] at hp
                exact ⟨u, List.mem_of_find?_eq_some hf, hp.1.symm, hp.2.symm⟩
        · simp [authenticateToken, jwtVerify, hsig] at hp

/-- Witness for C7: registering `"a@x.com"` into an empty store returns the
safe view of the stored user. -/
theorem C7_safe_view_everywhere_witness :
    ∃ u ∈ [({ id := 1, email := "a@x.com", passwordHash := "secret1$hash",
              createdAt := 0 } : User)],
      ({ id := 1, email := "a@x.com", createdAt := 0 } : SafeUser) =
        u.toSafeObject :=
  C7_safe_view_everywhere.2.2.1 (fun p => p ++ "$hash") "s" [] 1 0
    "a@x.com" "secret1" 201 "User registered successfully"
    { id := 1, email := "a@x.com", createdAt := 0 }
    (generateToken "s" 0 1)
    [{ id := 1, email := "a@x.com", passwordHash := "secret1$hash",
       createdAt := 0 }] rfl

/-! ### C10 -/

theorem lastIndexOfChar_eq_none {c : Char} {cs : List Char} :
    lastIndexOfChar c cs = none ↔ c ∉ cs := by
  induction cs with
  | nil => simp [lastIndexOfChar]
  | cons x xs ih =>
      simp only [lastIndexOfChar]
      cases h : lastIndexOfChar c xs with
      | some i =>
          have hc : c ∈ xs := by
            by_contra hmem
            exact absurd (ih.mpr hmem) (by simp [h])
          simp [hc]
      | none =>
          by_cases hx : x = c
          · simp [hx]
          · simp [hx, ih.mp h, Ne.symm hx]

theorem lastIndexOfChar_spec {c : Char} {cs : List Char} {i : Nat}
    (h : lastIndexOfChar c cs = some i) :
    i < cs.length ∧ cs.get? i = some c ∧
      ∀ j, i < j → cs.get? j ≠ some c := by
  induction cs generalizing i with
  | nil => cases h
  | cons x xs ih =>
      simp only [lastIndexOfChar] at h
      revert h
      cases hr : lastIndexOfChar c xs with
      | some k =>
          intro h
          injection h with h2
          subst h2
          obtain ⟨hk, hget, hafter⟩ := ih hr
          refine ⟨by simpa using Nat.succ_lt_succ hk, by simpa using hget, ?_⟩
          intro j hj
          cases j with
          | zero => exact absurd hj (by omega)
          | succ j2 =>
              simp only [List.get?_cons_succ]
              exact hafter j2 (by omega)
      | none =>
          intro h
          by_cases hx : x = c
          · simp only [hx, if_pos rfl] at h
            injection h with h2
            subst h2
            refine ⟨by simp, by simp [hx], ?_⟩
            intro j hj
            cases j with
            | zero => exact absurd hj (by omega)
            | succ j2 =>
                simp only [List.get?_cons_succ]
                intro hcontra
                exact (lastIndexOfChar_eq_none.mp hr) (List.get?_mem hcontra)
          · simp [hx] at h

theorem mem_insertByCreatedAtDesc {x p : Post} {l : List Post}
    (h : x ∈ insertByCreatedAtDesc p l) : x = p ∨ x ∈ l := by
  induction l with
  | nil =>
      simp only [insertByCreatedAtDesc, List.mem_singleton] at h
      exact Or.inl h
  | cons q qs ih =>
      by_cases hle : p.createdAt ≤ q.createdAt
      · simp only [insertByCreatedAtDesc, if_pos hle, List.mem_cons] at h
        rcases h with rfl | h2
        · exact Or.inr (List.mem_cons_self ..)
        · rcases ih h2 with rfl | h3
          · exact Or.inl rfl
          · exact Or.inr (List.mem_cons_of_mem _ h3)
      · simp only [insertByCreatedAtDesc, if_neg hle, List.mem_cons] at h
        simpa [List.mem_cons] using h

theorem mem_sortByCreatedAtDesc {x : Post} {l : List Post}
    (h : x ∈ sortByCreatedAtDesc l) : x ∈ l := by
  induction l with
  | nil => simpa [sortByCreatedAtDesc] using h
  | cons p ps ih =>
      rw [sortByCreatedAtDesc] at h
      rcases mem_insertByCreatedAtDesc h with rfl | h2
      · exact List.mem_cons_self ..
      · exact List.mem_cons_of_mem _ (ih h2)

theorem mem_findAll {users : List User} {store : List PostRow}
    {filt : Option Nat} {q : Post} (h : q ∈ Post.findAll users store filt) :
    ∃ r ∈ store, q = joinAuthor users r := by
  unfold Post.findAll at h
  have h2 := mem_sortByCreatedAtDesc h
  rw [List.mem_map] at h2
  obtain ⟨r, hr, rfl⟩ := h2
  refine ⟨r, ?_, rfl⟩
  cases filt with
  | none => exact hr
  | some a =>
      revert hr
      dsimp only
      split
      · exact fun hr => List.mem_of_mem_filter hr
      · exact fun hr => hr

/-- C10: list endpoints truncate over-long content — content of at most 200
characters is returned verbatim; longer content is replaced by the prefix up
to the last space among the first 200 characters with `"..."` appended
(becoming exactly `"..."` when those 200 characters hold no space) — every
post listed by the all-posts and my-posts endpoints is a `toSummary` of a
stored row, and read-by-id returns the full content. -/
theorem C10_list_truncation :
    (∀ p : Post, p.content.length ≤ 200 →
       (Post.toSummary p).content = p.content) ∧
    (∀ p : Post, 200 < p.content.length →
       lastIndexOfChar ' ' (p.content.toList.take 200) = none →
       (Post.toSummary p).content = "...") ∧
    (∀ (p : Post) (i : Nat), 200 < p.content.length →
       lastIndexOfChar ' ' (p.content.toList.take 200) = some i →
       (Post.toSummary p).content =
         String.mk (p.content.toList.take i) ++ "..." ∧
       i < 200 ∧ p.content.toList.get? i = some ' ' ∧
       ∀ j, i < j → j < 200 → p.content.toList.get? j ≠ some ' ') ∧
    (∀ (users : List User) (store : List PostRow) (author : Option Nat)
       (st : Nat) (msg : String) (vs : List PostView) (n : Nat),
       postController.getAllPosts users store author = .okList st msg vs n →
       ∀ v ∈ vs, ∃ r ∈ store, v = (joinAuthor users r).toSummary) ∧
    (∀ (users : List User) (store : List PostRow) (uid st : Nat)
       (msg : String) (vs : List PostView) (n : Nat),
       postController.getMyPosts users store (some uid) = .okList st msg vs n →
       ∀ v ∈ vs, ∃ r ∈ store, v = (joinAuthor users r).toSummary) ∧
    (∀ (users : List User) (store : List PostRow) (pid : Nat) (p : Post),
       Post.findById users store pid = some p → pid ≠ 0 →
       postController.getPostById users store pid =
         .okPost 200 "Post retrieved successfully" p.toObject ∧
       (Post.toObject p).content = p.content) := by
  refine ⟨?_, ?_, ?_, ?_, ?_, ?_⟩
  · intro p hlen
    simp [Post.toSummary, Nat.not_lt.mpr hlen]
  · intro p hlen hnone
    have hnone2 : lastIndexOfChar ' ' (List.take 200 p.content.data) = none :=
      hnone
    simp [Post.toSummary, jsTruncateAtLastSpace, hlen, hnone2]
  · intro p i hlen hsome
    obtain ⟨hi, hget, hafter⟩ := lastIndexOfChar_spec hsome
    have hsome2 : lastIndexOfChar ' ' (List.take 200 p.content.data) = some i :=
      hsome
    have hlen2 : 200 < p.content.toList.length := hlen
    have hi200 : i < 200 := by
      have htk := List.length_take 200 p.content.toList
      omega
    refine ⟨?_, hi200, ?_, ?_⟩
    · simp [Post.toSummary, jsTruncateAtLastSpace, hlen, hsome2,
        List.take_take, Nat.min_eq_left (Nat.le_of_lt hi200)]
    · rw [← List.get?_take hi200]
      exact hget
    · intro j hij hj200
      rw [← List.get?_take (l := p.content.toList) (n := 200) hj200]
      exact hafter j hij
  · intro users store author st msg vs n h v hv
    have hvs : ∀ posts : List Post,
        vs = posts.map (fun p => p.toSummary) →
        (∀ q ∈ posts, ∃ r ∈ store, q = joinAuthor users r) →
        ∃ r ∈ store, v = (joinAuthor users r).toSummary := by
      intro posts heq hsub
      subst heq
      rw [List.mem_map] at hv
      obtain ⟨q, hq, rfl⟩ := hv
      obtain ⟨r, hr, rfl⟩ := hsub q hq
      exact ⟨r, hr, rfl⟩
    cases author with
    | none =>
        simp only [postController.getAllPosts, PostResponse.okList.injEq] at h
        exact hvs _ h.2.2.1.symm (fun q hq => mem_findAll hq)
    | some a =>
        by_cases ha : a == 0
        · simp [postController.getAllPosts, ha] at h
        · revert h
          simp only [postController.getAllPosts, ha, Bool.false_eq_true,
            if_false]
          cases User.findById users a with
          | none => intro h; cases h
          | some w =>
              intro h
              simp only [PostResponse.okList.injEq] at h
              exact hvs _ h.2.2.1.symm (fun q hq => mem_findAll hq)
  · intro users store uid st msg vs n h v hv
    simp only [postController.getMyPosts, PostResponse.okList.injEq] at h
    obtain ⟨hst, hmsg, hvs, hn⟩ := h
    subst hvs
    rw [List.mem_map] at hv
    obtain ⟨q, hq, rfl⟩ := hv
    have hq2 : q ∈ Post.findAll users store (some uid) := hq
    obtain ⟨r, hr, rfl⟩ := mem_findAll hq2
    exact ⟨r, hr, rfl⟩
  · intro users store pid p hfind hpid
    refine ⟨?_, rfl⟩
    simp [postController.getPostById, hpid, hfind]

/-- A stored post whose first 200 characters hold no space at all. -/
def longNoSpaceP : Post :=
  { id := 3, title := "t", content := String.mk (List.replicate 250 'a'),
    authorId := 1, createdAt := 0, authorEmail := none }

set_option maxRecDepth 100000 in
/-- Witness for C10: short content is passed through verbatim, and 250
space-free characters collapse to `"..."`. -/
theorem C10_list_truncation_witness :
    (Post.toSummary (joinAuthor [aliceU] demoRow)).content =
      (joinAuthor [aliceU] demoRow).content ∧
    (Post.toSummary longNoSpaceP).content = "..." :=
  ⟨C10_list_truncation.1 (joinAuthor [aliceU] demoRow) (by decide),
   C10_list_truncation.2.1 longNoSpaceP (by decide) (by decide)⟩

end BlogPlatform
